import Mathlib

/-!
Verification of `app/routes/admin/create-trip.tsx` from the
travel-agency-dashboard repository.

The page is a single React component.  Its verifiable logic is:
  * `handleChange` — a field-wise update of the `TripFormData` state;
  * `handleSubmit` — validation, an auth lookup, a POST to
    `/api/create-trip`, and navigation on success;
  * the country combo-box `filtering` callback — a case-insensitive
    substring filter over the loaded country list.

We embed this logic shallowly.  JavaScript numbers reaching the
`duration` field come from `Number(e.target.value)` and are either an
integer or `NaN`, so they are modelled by `JSNum`.  The submit handler
is modelled as a pure function from the form state and an environment
(the outcomes of the two external calls) to a trace of observable
events, in source order; an uncaught promise rejection is recorded by
the `threw` flag.  All definitions follow the source; the few
spec-side notions used to compare against it (substring containment,
the truthy success id) are named as such.
-/

/-- JavaScript numeric values produced by `Number(...)` on the duration
input: an integer, or `NaN` (e.g. `Number("")`). -/
inductive JSNum where
  | nan : JSNum
  | num : Int → JSNum
deriving DecidableEq, Repr

/-- JavaScript `<` on numbers: any comparison involving `NaN` is false. -/
def JSNum.lt : JSNum → JSNum → Bool
  | .num a, .num b => a < b
  | _, _ => false

/-- JavaScript `>` on numbers: `a > b` behaves as `b < a`, with `NaN`
comparisons false. -/
def JSNum.gt (a b : JSNum) : Bool := JSNum.lt b a

/-- JSON values appearing in the `JSON.stringify`d request body.
`JSON.stringify` serialises `NaN` as `null`. -/
inductive JsonVal where
  | str : String → JsonVal
  | num : Int → JsonVal
  | null : JsonVal
deriving DecidableEq, Repr

/-- How `JSON.stringify` renders a JavaScript number: `NaN` becomes
`null`, an integer stays itself. -/
def JSNum.toJson : JSNum → JsonVal
  | .nan => .null
  | .num n => .num n

/-- The `TripFormData` state of the component (source lines 30–37).
`duration` is a JavaScript number fed from `Number(e.target.value)`. -/
structure TripFormData where
  country : String
  travelStyle : String
  interest : String
  budget : String
  duration : JSNum
  groupType : String
deriving DecidableEq, Repr

/-- The authenticated-user record returned by `account.get()`; only the
`$id` field is read by the component.  A falsy `$id` is modelled by the
empty string. -/
structure User where
  idString : String
deriving DecidableEq, Repr

/-- Outcome of the `fetch("/api/create-trip", ...)` call followed by
`resp.json()`:
  * `rejected` — the fetch promise rejects;
  * `jsonRejected` — the fetch resolves but parsing the JSON body throws;
  * `parsed idOpt` — the JSON parses; `idOpt` is the `id` field of the
    response (`none` when absent or nullish). -/
inductive PostOutcome where
  | rejected : PostOutcome
  | jsonRejected : PostOutcome
  | parsed : Option String → PostOutcome
deriving DecidableEq, Repr

/-- The environment of one submit invocation: the result of the
`account.get()` auth lookup (`Except.error` models a rejected promise),
and the outcome of the create-trip POST should it be issued. -/
structure Env where
  authResult : Except Unit User
  postOutcome : PostOutcome

/-- Observable events emitted by the submit handler, in program order.
`setFormData` can be emitted by React state setters in general; the
submit handler never emits it (the source never calls `setFormData`
inside `handleSubmit`), which is what lets us state frame properties. -/
inductive Event where
  | setLoading : Bool → Event
  | setError : String → Event
  | setFormData : TripFormData → Event
  | consoleError : String → Event
  | authGet : Event
  | postRequest : String → List (String × JsonVal) → Event
  | navigate : String → Event
deriving DecidableEq, Repr

/-- The result of running the submit handler: the trace of events, and
whether the promise of the handler rejected with an uncaught exception. -/
structure HandlerRun where
  trace : List Event
  threw : Bool
deriving DecidableEq, Repr

/-- The required-field check of source lines 85–91: true when any of the
five string fields is empty (JavaScript `!s` on a string). -/
def missingField (fd : TripFormData) : Bool :=
  fd.country = "" || fd.travelStyle = "" || fd.interest = "" ||
    fd.budget = "" || fd.groupType = ""

/-- The duration check of source line 96:
`formData.duration < 1 || formData.duration > 10` under JavaScript
numeric comparison. -/
def durationInvalid (fd : TripFormData) : Bool :=
  JSNum.lt fd.duration (.num 1) || JSNum.gt fd.duration (.num 10)

/-- The JSON body built at source lines 113–121, as the ordered
key/value list passed to `JSON.stringify`. -/
def requestBody (fd : TripFormData) (u : User) : List (String × JsonVal) :=
  [("country", .str fd.country),
   ("numberOfDays", fd.duration.toJson),
   ("travelStyle", .str fd.travelStyle),
   ("interests", .str fd.interest),
   ("budget", .str fd.budget),
   ("groupType", .str fd.groupType),
   ("userId", .str u.idString)]

/-- The submit handler (source lines 81–134), as a trace-producing pure
function of the form state and the environment.  Mirrors the source
control flow statement by statement:
`setLoading(true)`; the two validation guards; `await account.get()`
(outside the try — a rejection there is uncaught); the falsy-`$id`
guard; the try block issuing the POST, parsing the JSON, navigating on a
truthy `id` and logging otherwise; the catch logging; the finally
resetting the loading flag. -/
def handleSubmit (fd : TripFormData) (env : Env) : HandlerRun :=
  let start : List Event := [.setLoading true]
  if missingField fd then
    ⟨start ++ [.setError "Please provide input for all fields", .setLoading false], false⟩
  else if durationInvalid fd then
    ⟨start ++ [.setError "Duration must be between 1 and 10 days", .setLoading false], false⟩
  else
    match env.authResult with
    | .error _ =>
        -- `await account.get()` rejects outside any try/catch: the
        -- promise of the handler rejects; no further statement runs.
        ⟨start ++ [.authGet], true⟩
    | .ok user =>
        if user.idString = "" then
          ⟨start ++ [.authGet, .consoleError "User not authenticated", .setLoading false], false⟩
        else
          let pre := start ++ [.authGet, .postRequest "/api/create-trip" (requestBody fd user)]
          match env.postOutcome with
          | .rejected =>
              ⟨pre ++ [.consoleError "Error generating itinerary:", .setLoading false], false⟩
          | .jsonRejected =>
              ⟨pre ++ [.consoleError "Error generating itinerary:", .setLoading false], false⟩
          | .parsed idOpt =>
              match idOpt with
              | some s =>
                  if s = "" then
                    ⟨pre ++ [.consoleError "Failed to generate itinerary", .setLoading false], false⟩
                  else
                    ⟨pre ++ [.navigate ("/admin/trip-detail/" ++ s), .setLoading false], false⟩
              | none =>
                  ⟨pre ++ [.consoleError "Failed to generate itinerary", .setLoading false], false⟩

/-- The network calls appearing in a trace: the auth lookup and any POST
requests. -/
def networkCalls (tr : List Event) : List Event :=
  tr.filter fun e =>
    match e with
    | .authGet => true
    | .postRequest _ _ => true
    | _ => false

/-- The POST requests appearing in a trace, as (url, body) pairs. -/
def postRequests (tr : List Event) : List (String × List (String × JsonVal)) :=
  tr.filterMap fun e =>
    match e with
    | .postRequest url body => some (url, body)
    | _ => none

/-- The navigations performed in a trace. -/
def navigations (tr : List Event) : List String :=
  tr.filterMap fun e =>
    match e with
    | .navigate p => some p
    | _ => none

/-- The console-error messages logged in a trace. -/
def consoleErrors (tr : List Event) : List String :=
  tr.filterMap fun e =>
    match e with
    | .consoleError m => some m
    | _ => none

/-- The value of the `loading` state after replaying a trace from an
initial value. -/
def loadingAfter (init : Bool) (tr : List Event) : Bool :=
  tr.foldl (fun b e => match e with | .setLoading v => v | _ => b) init

/-- The value of the `error` state after replaying a trace from an
initial value (the component initialises it to `null`). -/
def errorAfter (init : Option String) (tr : List Event) : Option String :=
  tr.foldl (fun b e => match e with | .setError m => some m | _ => b) init

/-- The value of the `formData` state after replaying a trace from an
initial value. -/
def formDataAfter (init : TripFormData) (tr : List Event) : TripFormData :=
  tr.foldl (fun b e => match e with | .setFormData v => v | _ => b) init

/-- The `disabled` binding of the submit `ButtonComponent`
(source line 248): `disabled={loading}`. -/
def submitDisabled (loading : Bool) : Bool := loading

/-!  The country list and the combo-box filtering callback. -/

/-- A `Country` record (source lines 23–28).  Only `name` and `value`
are consumed by the verified logic; `coordinates` are floating-point
map data and `openStreetMap` an optional link, neither of which the
filtering or submission logic reads. -/
structure Country where
  name : String
  value : String
  openStreetMap : Option String := none
deriving DecidableEq, Repr

/-- A `{text, value}` item handed to the combo box. -/
structure ComboItem where
  text : String
  value : String
deriving DecidableEq, Repr

/-- JavaScript `String.prototype.toLowerCase`, character-wise. -/
def jsToLower (s : String) : String := ⟨s.data.map Char.toLower⟩

/-- JavaScript `String.prototype.includes`: substring containment. -/
def jsIncludes (s sub : String) : Bool := decide (sub.data <:+: s.data)

/-- The country combo-box `filtering` callback (source lines 168–175):
lower-cases `String(e.text ?? "")`, keeps the countries whose
lower-cased display name contains it, and maps them to
`{text, value}` items. -/
def countryFiltering (countries : List Country) (text : Option String) :
    List ComboItem :=
  let query := jsToLower (text.getD "")
  (countries.filter fun c => jsIncludes (jsToLower c.name) query).map
    fun c => ⟨c.name, c.value⟩

/-!  The `handleChange` state updater. -/

/-- The keys of `TripFormData`. -/
inductive FieldKey where
  | country | travelStyle | interest | budget | duration | groupType
deriving DecidableEq, Repr

/-- A field value: the five select fields hold strings, `duration`
holds a JavaScript number (`string | number` in the source). -/
inductive FieldVal where
  | str : String → FieldVal
  | num : JSNum → FieldVal
deriving DecidableEq, Repr

/-- A key/value pair as passed to `handleChange` at its call sites:
strings for the five combo-box fields, a number for `duration`. -/
inductive FieldUpdate where
  | country : String → FieldUpdate
  | travelStyle : String → FieldUpdate
  | interest : String → FieldUpdate
  | budget : String → FieldUpdate
  | duration : JSNum → FieldUpdate
  | groupType : String → FieldUpdate
deriving DecidableEq, Repr

/-- The key component of an update. -/
def FieldUpdate.key : FieldUpdate → FieldKey
  | .country _ => .country
  | .travelStyle _ => .travelStyle
  | .interest _ => .interest
  | .budget _ => .budget
  | .duration _ => .duration
  | .groupType _ => .groupType

/-- The value component of an update. -/
def FieldUpdate.val : FieldUpdate → FieldVal
  | .country v => .str v
  | .travelStyle v => .str v
  | .interest v => .str v
  | .budget v => .str v
  | .duration v => .num v
  | .groupType v => .str v

/-- Reading one field of the form state. -/
def readField (s : TripFormData) : FieldKey → FieldVal
  | .country => .str s.country
  | .travelStyle => .str s.travelStyle
  | .interest => .str s.interest
  | .budget => .str s.budget
  | .duration => .num s.duration
  | .groupType => .str s.groupType

/-- `handleChange` (source lines 78–79):
`setFormData((s) => ({ ...s, [key]: value }))` — the spread copies
every field of the previous state and the computed key overwrites the
named one. -/
def handleChange (s : TripFormData) : FieldUpdate → TripFormData
  | .country v => { s with country := v }
  | .travelStyle v => { s with travelStyle := v }
  | .interest v => { s with interest := v }
  | .budget v => { s with budget := v }
  | .duration v => { s with duration := v }
  | .groupType v => { s with groupType := v }

/-!  Spec-side helpers, used only in theorem statements. -/

/-- Spec-side notion for the success case: the id carried by a parsed
POST response when it is truthy (present and non-empty), `none`
otherwise. -/
def successId (env : Env) : Option String :=
  match env.postOutcome with
  | .parsed (some s) => if s = "" then none else some s
  | _ => none

/-- Sample completed form used by the concrete-instance theorems. -/
def fdSample : TripFormData :=
  { country := "France", travelStyle := "Luxury", interest := "Food",
    budget := "Mid-range", duration := .num 5, groupType := "Solo" }

/-- Sample authenticated user used by the concrete-instance theorems. -/
def userSample : User := { idString := "user-1" }

/-!  Theorems. -/

/-- `jsIncludes s sub` decides substring containment of the character
lists. -/
theorem jsIncludes_eq_true_iff (s sub : String) :
    jsIncludes s sub = true ↔ sub.data <:+: s.data := by
  simp [jsIncludes]

/-- C10: for every prior form state, every field key, and every value,
`handleChange` produces a state in which the named field holds the new
value and every other field is unchanged. -/
theorem handleChange_frame (s : TripFormData) (u : FieldUpdate) (k : FieldKey) :
    readField (handleChange s u) k =
      if k = u.key then u.val else readField s k := by
  cases u <;> cases k <;>
    simp [handleChange, readField, FieldUpdate.key, FieldUpdate.val]

/-- C1: whenever one of the five required string fields is empty, the
submit handler sets the validation error message, issues no network
call (neither the auth lookup nor the POST), and leaves the form data
unchanged. -/
theorem submit_missing_field_rejects (fd : TripFormData) (env : Env)
    (h : fd.country = "" ∨ fd.travelStyle = "" ∨ fd.interest = "" ∨
      fd.budget = "" ∨ fd.groupType = "") :
    errorAfter none (handleSubmit fd env).trace =
        some "Please provide input for all fields" ∧
    networkCalls (handleSubmit fd env).trace = [] ∧
    formDataAfter fd (handleSubmit fd env).trace = fd := by
  have hm : missingField fd = true := by
    unfold missingField
    rcases h with h | h | h | h | h <;> simp [h]
  simp [handleSubmit, hm, errorAfter, networkCalls, formDataAfter]

/-- Concrete instance of C1: a form with an empty country field. -/
theorem submit_missing_field_rejects_witness :
    errorAfter none (handleSubmit { fdSample with country := "" }
        { authResult := .ok userSample, postOutcome := .parsed none }).trace =
      some "Please provide input for all fields" ∧
    networkCalls (handleSubmit { fdSample with country := "" }
        { authResult := .ok userSample, postOutcome := .parsed none }).trace = [] ∧
    formDataAfter { fdSample with country := "" }
        (handleSubmit { fdSample with country := "" }
          { authResult := .ok userSample, postOutcome := .parsed none }).trace =
      { fdSample with country := "" } :=
  submit_missing_field_rejects _ _ (Or.inl rfl)

/-- C2 (failing input): with every string field non-empty and
`duration = NaN` — as produced by `Number("")` when the duration input
is cleared — both JavaScript comparisons `NaN < 1` and `NaN > 10` are
false, so validation passes: no error message is set and the network
calls are issued, the auth lookup followed by the POST whose
`numberOfDays` is serialised as `null`. -/
theorem submit_nan_duration_bypasses_validation :
    errorAfter none (handleSubmit { fdSample with duration := .nan }
        { authResult := .ok userSample, postOutcome := .parsed (some "t1") }).trace =
      none ∧
    networkCalls (handleSubmit { fdSample with duration := .nan }
        { authResult := .ok userSample, postOutcome := .parsed (some "t1") }).trace =
      [.authGet,
       .postRequest "/api/create-trip"
         (requestBody { fdSample with duration := .nan } userSample)] := by
  constructor <;> rfl

/-- C3: the combo-box filtering callback returns a sublist of the
mapped country list (original order preserved), and a country item
appears in the result exactly when the lower-cased display name
contains the lower-cased query as a substring. -/
theorem countryFiltering_exact (countries : List Country) (text : Option String) :
    (countryFiltering countries text).Sublist
        (countries.map fun c => ComboItem.mk c.name c.value) ∧
    ∀ c ∈ countries,
      (ComboItem.mk c.name c.value ∈ countryFiltering countries text ↔
        (jsToLower (text.getD "")).data <:+: (jsToLower c.name).data) := by
  constructor
  · exact List.Sublist.map _ (List.filter_sublist countries)
  · intro c hc
    rw [← jsIncludes_eq_true_iff]
    constructor
    · intro hmem
      simp only [countryFiltering, List.mem_map, List.mem_filter] at hmem
      obtain ⟨c', ⟨hc', hpred⟩, heq⟩ := hmem
      have hname : c'.name = c.name := congrArg ComboItem.text heq
      rwa [hname] at hpred
    · intro hpred
      simp only [countryFiltering, List.mem_map]
      exact ⟨c, List.mem_filter.mpr ⟨hc, hpred⟩, rfl⟩

/-- Concrete instance of C3: querying a two-country list with "fra"
keeps exactly the country whose name contains it, case-insensitively. -/
theorem countryFiltering_exact_witness :
    ComboItem.mk "Fr France" "France" ∈
      countryFiltering
        [{ name := "Fr France", value := "France" },
         { name := "De Germany", value := "Germany" }] (some "FRA") :=
  ((countryFiltering_exact
      [{ name := "Fr France", value := "France" },
       { name := "De Germany", value := "Germany" }] (some "FRA")).2
    { name := "Fr France", value := "France" } (by decide)).mpr (by decide)

/-- C6: when validation passes and the user is authenticated with a
truthy id, exactly one POST is issued, to `/api/create-trip`, whose
body has exactly the seven keys in source order, `numberOfDays` being
the serialisation of the duration (equal to it whenever the duration is
an actual number), `interests` the interest field, `userId` the user
id, and the rest the like-named form fields. -/
theorem submit_post_body (fd : TripFormData) (env : Env) (u : User)
    (hv1 : missingField fd = false) (hv2 : durationInvalid fd = false)
    (hauth : env.authResult = .ok u) (hid : u.idString ≠ "") :
    postRequests (handleSubmit fd env).trace =
      [("/api/create-trip",
        [("country", .str fd.country),
         ("numberOfDays", fd.duration.toJson),
         ("travelStyle", .str fd.travelStyle),
         ("interests", .str fd.interest),
         ("budget", .str fd.budget),
         ("groupType", .str fd.groupType),
         ("userId", .str u.idString)])] ∧
    (∀ n : Int, fd.duration = .num n → fd.duration.toJson = .num n) := by
  obtain ⟨auth, post⟩ := env
  simp only at hauth
  subst hauth
  refine ⟨?_, fun n hn => by rw [hn]; rfl⟩
  cases post <;>
    simp [handleSubmit, hv1, hv2, hid, postRequests, requestBody]
  case parsed idOpt =>
    cases idOpt with
    | none => simp
    | some s =>
        by_cases hs : s = "" <;> simp [hs]

/-- Concrete instance of C6 at the sample form and user. -/
theorem submit_post_body_witness :
    postRequests (handleSubmit fdSample
        { authResult := .ok userSample, postOutcome := .parsed (some "t1") }).trace =
      [("/api/create-trip",
        [("country", .str fdSample.country),
         ("numberOfDays", fdSample.duration.toJson),
         ("travelStyle", .str fdSample.travelStyle),
         ("interests", .str fdSample.interest),
         ("budget", .str fdSample.budget),
         ("groupType", .str fdSample.groupType),
         ("userId", .str userSample.idString)])] ∧
    (∀ n : Int, fdSample.duration = .num n → fdSample.duration.toJson = .num n) :=
  submit_post_body fdSample _ userSample (by decide) (by decide) rfl (by decide)

/-- C7: when validation passes but the auth lookup resolves to a user
with a falsy id, the handler logs "User not authenticated", resets the
loading flag, issues no POST, and sets no user-visible error. -/
theorem submit_falsy_user_aborts (fd : TripFormData) (env : Env) (u : User)
    (hv1 : missingField fd = false) (hv2 : durationInvalid fd = false)
    (hauth : env.authResult = .ok u) (hid : u.idString = "") :
    consoleErrors (handleSubmit fd env).trace = ["User not authenticated"] ∧
    postRequests (handleSubmit fd env).trace = [] ∧
    errorAfter none (handleSubmit fd env).trace = none ∧
    loadingAfter false (handleSubmit fd env).trace = false := by
  obtain ⟨auth, post⟩ := env
  simp only at hauth
  subst hauth
  simp [handleSubmit, hv1, hv2, hid, consoleErrors, postRequests,
    errorAfter, loadingAfter]

/-- Concrete instance of C7 at the sample form and an empty user id. -/
theorem submit_falsy_user_aborts_witness :
    consoleErrors (handleSubmit fdSample
        { authResult := .ok { idString := "" }, postOutcome := .parsed none }).trace =
      ["User not authenticated"] ∧
    postRequests (handleSubmit fdSample
        { authResult := .ok { idString := "" }, postOutcome := .parsed none }).trace = [] ∧
    errorAfter none (handleSubmit fdSample
        { authResult := .ok { idString := "" }, postOutcome := .parsed none }).trace = none ∧
    loadingAfter false (handleSubmit fdSample
        { authResult := .ok { idString := "" }, postOutcome := .parsed none }).trace = false :=
  submit_falsy_user_aborts fdSample _ { idString := "" } (by decide) (by decide) rfl rfl

/-- C4: the handler navigates to `/admin/trip-detail/{id}` exactly when
the create-trip POST was issued and its parsed response carried a
truthy id; in every other case no navigation is performed. -/
theorem submit_navigation_iff (fd : TripFormData) (env : Env) :
    (∀ s, successId env = some s →
      postRequests (handleSubmit fd env).trace ≠ [] →
      navigations (handleSubmit fd env).trace = ["/admin/trip-detail/" ++ s]) ∧
    (successId env = none ∨ postRequests (handleSubmit fd env).trace = [] →
      navigations (handleSubmit fd env).trace = []) := by
  obtain ⟨auth, post⟩ := env
  by_cases hv1 : missingField fd
  · simp [handleSubmit, hv1, navigations, postRequests]
  · by_cases hv2 : durationInvalid fd
    · simp [handleSubmit, hv1, hv2, navigations, postRequests]
    · cases auth with
      | error e =>
          simp [handleSubmit, hv1, hv2, navigations, postRequests]
      | ok u =>
          by_cases hid : u.idString = ""
          · simp [handleSubmit, hv1, hv2, hid, navigations, postRequests]
          · cases post with
            | rejected =>
                simp [handleSubmit, hv1, hv2, hid, successId,
                  navigations, postRequests]
            | jsonRejected =>
                simp [handleSubmit, hv1, hv2, hid, successId,
                  navigations, postRequests]
            | parsed idOpt =>
                cases idOpt with
                | none =>
                    simp [handleSubmit, hv1, hv2, hid, successId,
                      navigations, postRequests]
                | some s =>
                    by_cases hs : s = "" <;>
                      simp [handleSubmit, hv1, hv2, hid, hs, successId,
                        navigations, postRequests]

/-- Concrete instance of C4: a successful POST with id "t1" navigates
to /admin/trip-detail/t1. -/
theorem submit_navigation_iff_witness :
    navigations (handleSubmit fdSample
        { authResult := .ok userSample, postOutcome := .parsed (some "t1") }).trace =
      ["/admin/trip-detail/t1"] :=
  (submit_navigation_iff fdSample
      { authResult := .ok userSample, postOutcome := .parsed (some "t1") }).1
    "t1" rfl (by decide)

/-- C5: when the POST was issued and its parsed response lacks a truthy
id, the handler only logs "Failed to generate itinerary": no
navigation, no user-visible error, and the loading flag ends false. -/
theorem submit_missing_id_logs_only (fd : TripFormData) (env : Env)
    (idOpt : Option String) (hpost : env.postOutcome = .parsed idOpt)
    (hfalsy : ∀ s, idOpt = some s → s = "")
    (hissued : postRequests (handleSubmit fd env).trace ≠ []) :
    navigations (handleSubmit fd env).trace = [] ∧
    consoleErrors (handleSubmit fd env).trace = ["Failed to generate itinerary"] ∧
    errorAfter none (handleSubmit fd env).trace = none ∧
    loadingAfter false (handleSubmit fd env).trace = false := by
  obtain ⟨auth, post⟩ := env
  simp only at hpost
  subst hpost
  by_cases hv1 : missingField fd
  · exact absurd (by simp [handleSubmit, hv1, postRequests]) hissued
  · by_cases hv2 : durationInvalid fd
    · exact absurd (by simp [handleSubmit, hv1, hv2, postRequests]) hissued
    · cases auth with
      | error e =>
          exact absurd (by simp [handleSubmit, hv1, hv2, postRequests]) hissued
      | ok u =>
          by_cases hid : u.idString = ""
          · exact absurd (by simp [handleSubmit, hv1, hv2, hid, postRequests])
              hissued
          · cases idOpt with
            | none =>
                simp [handleSubmit, hv1, hv2, hid, navigations,
                  consoleErrors, errorAfter, loadingAfter]
            | some s =>
                have hs : s = "" := hfalsy s rfl
                subst hs
                simp [handleSubmit, hv1, hv2, hid, navigations,
                  consoleErrors, errorAfter, loadingAfter]

/-- Concrete instance of C5: a parsed response with no id field. -/
theorem submit_missing_id_logs_only_witness :
    navigations (handleSubmit fdSample
        { authResult := .ok userSample, postOutcome := .parsed none }).trace = [] ∧
    consoleErrors (handleSubmit fdSample
        { authResult := .ok userSample, postOutcome := .parsed none }).trace =
      ["Failed to generate itinerary"] ∧
    errorAfter none (handleSubmit fdSample
        { authResult := .ok userSample, postOutcome := .parsed none }).trace = none ∧
    loadingAfter false (handleSubmit fdSample
        { authResult := .ok userSample, postOutcome := .parsed none }).trace = false :=
  submit_missing_id_logs_only fdSample
    { authResult := .ok userSample, postOutcome := .parsed none } none rfl
    (fun s h => by cases h) (by decide)

/-- C8 counterexample: on a valid form, a rejection of the auth lookup
(`await account.get()` sits before the try/catch) is NOT logged to the
console — the promise of the handler rejects with an empty console
trace, refuting the claim that every post-validation network/auth
failure is logged. -/
theorem submit_auth_rejection_unlogged :
    (handleSubmit fdSample
        { authResult := .error (), postOutcome := .parsed none }).threw = true ∧
    consoleErrors (handleSubmit fdSample
        { authResult := .error (), postOutcome := .parsed none }).trace = [] := by
  constructor <;> rfl

/-- C8 amended: after validation passes, a rejection of the create-trip
fetch or a failure to parse its JSON response is caught and logged
("Error generating itinerary:"), and a falsy user id is logged, with no
user-visible error beyond validation in either case; but a rejection of
the auth lookup itself escapes uncaught, logging nothing. -/
theorem submit_failure_logging (fd : TripFormData) (env : Env)
    (hv1 : missingField fd = false) (hv2 : durationInvalid fd = false) :
    (env.authResult = .error () →
      (handleSubmit fd env).threw = true ∧
      consoleErrors (handleSubmit fd env).trace = []) ∧
    (∀ u, env.authResult = .ok u →
      (handleSubmit fd env).threw = false ∧
      errorAfter none (handleSubmit fd env).trace = none ∧
      (u.idString ≠ "" →
        (env.postOutcome = .rejected ∨ env.postOutcome = .jsonRejected) →
        consoleErrors (handleSubmit fd env).trace =
          ["Error generating itinerary:"])) := by
  obtain ⟨auth, post⟩ := env
  cases auth with
  | error e =>
      refine ⟨fun _ => ?_, fun u hu => (nomatch hu)⟩
      constructor <;> simp [handleSubmit, hv1, hv2, consoleErrors]
  | ok u =>
      refine ⟨fun h => (nomatch h), fun u' hu' => ?_⟩
      have h : u = u' := Except.ok.inj hu'
      subst h
      by_cases hid : u.idString = ""
      · refine ⟨?_, ?_, fun hne _ => absurd hid hne⟩ <;>
          simp [handleSubmit, hv1, hv2, hid, errorAfter]
      · refine ⟨?_, ?_, fun hne hpost => ?_⟩
        · cases post with
          | rejected => simp [handleSubmit, hv1, hv2, hid]
          | jsonRejected => simp [handleSubmit, hv1, hv2, hid]
          | parsed idOpt =>
              cases idOpt with
              | none => simp [handleSubmit, hv1, hv2, hid]
              | some s =>
                  by_cases hs : s = "" <;>
                    simp [handleSubmit, hv1, hv2, hid, hs]
        · cases post with
          | rejected => simp [handleSubmit, hv1, hv2, hid, errorAfter]
          | jsonRejected => simp [handleSubmit, hv1, hv2, hid, errorAfter]
          | parsed idOpt =>
              cases idOpt with
              | none => simp [handleSubmit, hv1, hv2, hid, errorAfter]
              | some s =>
                  by_cases hs : s = "" <;>
                    simp [handleSubmit, hv1, hv2, hid, hs, errorAfter]
        · rcases hpost with h | h <;> subst h <;>
            simp [handleSubmit, hv1, hv2, hid, consoleErrors]

/-- Concrete instance of the amended C8: a rejected fetch on a valid
form is caught and logged. -/
theorem submit_failure_logging_witness :
    consoleErrors (handleSubmit fdSample
        { authResult := .ok userSample, postOutcome := .rejected }).trace =
      ["Error generating itinerary:"] :=
  (((submit_failure_logging fdSample
        { authResult := .ok userSample, postOutcome := .rejected }
        (by decide) (by decide)).2 userSample rfl).2.2 (by decide) (Or.inl rfl))

/-- C9 counterexample: on a valid form whose auth lookup rejects, the
handler terminates (by rejection) with the loading flag still true,
refuting the claim that every completion path resets it to false. -/
theorem submit_auth_rejection_leaves_loading :
    loadingAfter false (handleSubmit fdSample
        { authResult := .error (), postOutcome := .parsed none }).trace = true := by
  rfl

/-- C9 amended: every invocation sets the loading flag true as its
first action, and the submit control is disabled exactly when the flag
is set; on every path on which the handler returns normally the flag is
reset to false, and the single abnormal path — the handler throwing —
occurs only when the auth lookup rejects (leaving the flag true). -/
theorem submit_loading_discipline (fd : TripFormData) (env : Env) :
    (handleSubmit fd env).trace.head? = some (.setLoading true) ∧
    (∀ b, submitDisabled b = b) ∧
    ((handleSubmit fd env).threw = false →
      loadingAfter false (handleSubmit fd env).trace = false) ∧
    ((handleSubmit fd env).threw = true →
      env.authResult = .error () ∧
      loadingAfter false (handleSubmit fd env).trace = true) := by
  obtain ⟨auth, post⟩ := env
  by_cases hv1 : missingField fd
  · simp [handleSubmit, hv1, loadingAfter, submitDisabled]
  · by_cases hv2 : durationInvalid fd
    · simp [handleSubmit, hv1, hv2, loadingAfter, submitDisabled]
    · cases auth with
      | error e =>
          simp [handleSubmit, hv1, hv2, loadingAfter, submitDisabled]
      | ok u =>
          by_cases hid : u.idString = ""
          · simp [handleSubmit, hv1, hv2, hid, loadingAfter, submitDisabled]
          · cases post with
            | rejected =>
                simp [handleSubmit, hv1, hv2, hid, loadingAfter, submitDisabled]
            | jsonRejected =>
                simp [handleSubmit, hv1, hv2, hid, loadingAfter, submitDisabled]
            | parsed idOpt =>
                cases idOpt with
                | none =>
                    simp [handleSubmit, hv1, hv2, hid, loadingAfter,
                      submitDisabled]
                | some s =>
                    by_cases hs : s = "" <;>
                      simp [handleSubmit, hv1, hv2, hid, hs, loadingAfter,
                        submitDisabled]

/-- Concrete instance of the amended C9: a normal run ends with the
loading flag false. -/
theorem submit_loading_discipline_witness :
    loadingAfter false (handleSubmit fdSample
        { authResult := .ok userSample, postOutcome := .parsed (some "t1") }).trace =
      false :=
  (submit_loading_discipline fdSample
      { authResult := .ok userSample, postOutcome := .parsed (some "t1") }).2.2.1
    (by decide)
